import Mathlib

/-!
Shallow embedding of the http-timeout-wrapper library (src/unnamed/part_000):
the CircuitBreaker state machine, the backoff delay calculator, the
retryability classifier, the retry loop of HttpWrapper.request, and the
configuration merging of the HttpWrapper constructor.

JavaScript timestamps (Date.now()) are modelled as Int; counters as Nat.
Asynchronous operations are modelled by their outcome (Except), and
callback hooks (onRetry, onCircuitOpen, onCircuitClose) by emitted event
lists, so that hook invocation counts and ordering are observable.
-/

/-- Circuit breaker states: the source uses the strings "closed", "open",
"half-open"; "open" is a Lean keyword, so the constructor is named opened. -/
inductive CircuitState where
  | closed
  | opened
  | halfOpen
  deriving Repr, DecidableEq

/-- Circuit breaker configuration (the circuitBreaker sub-object of
DEFAULT_CONFIG): enabled flag, failure/success thresholds, and the
half-open timeout in ms. -/
structure CBConfig where
  enabled : Bool
  failureThreshold : Nat
  successThreshold : Nat
  timeout : Int
  deriving Repr, DecidableEq

/-- Mutable state of the CircuitBreaker class: config plus the four state
fields set in the constructor. -/
structure CircuitBreaker where
  config : CBConfig
  state : CircuitState
  failureCount : Nat
  successCount : Nat
  lastFailureTime : Option Int
  deriving Repr, DecidableEq

/-- Events emitted by the breaker in place of the onCircuitOpen /
onCircuitClose callbacks. -/
inductive CBEvent where
  | circuitOpen
  | circuitClose
  deriving Repr, DecidableEq

/-- CircuitBreaker constructor: state "closed", zero counters, null
lastFailureTime. -/
def CircuitBreaker.init (config : CBConfig) : CircuitBreaker :=
  { config := config
    state := CircuitState.closed
    failureCount := 0
    successCount := 0
    lastFailureTime := none }

/-- CircuitBreaker.onSuccess: failureCount = 0, successCount++, and in
half-open state close the circuit once successCount reaches
successThreshold, firing onCircuitClose. -/
def CircuitBreaker.onSuccess (cb : CircuitBreaker) : CircuitBreaker × List CBEvent :=
  let cb := { cb with failureCount := 0, successCount := cb.successCount + 1 }
  if cb.state = CircuitState.halfOpen then
    if cb.config.successThreshold ≤ cb.successCount then
      ({ cb with state := CircuitState.closed, successCount := 0 }, [CBEvent.circuitClose])
    else
      (cb, [])
  else
    (cb, [])

/-- CircuitBreaker.onFailure: failureCount++, successCount = 0, record
lastFailureTime = now, and open the circuit (firing onCircuitOpen once)
when failureCount reaches failureThreshold and the state is not already
open. -/
def CircuitBreaker.onFailure (cb : CircuitBreaker) (now : Int) : CircuitBreaker × List CBEvent :=
  let cb := { cb with
    failureCount := cb.failureCount + 1
    successCount := 0
    lastFailureTime := some now }
  if cb.config.failureThreshold ≤ cb.failureCount then
    if cb.state ≠ CircuitState.opened then
      ({ cb with state := CircuitState.opened }, [CBEvent.circuitOpen])
    else
      (cb, [])
  else
    (cb, [])

/-- Result of CircuitBreaker.execute: the operation's value, the
operation's error (rethrown unchanged), or the CircuitBreakerOpenError
raised without running the operation. -/
inductive ExecResult (ε α : Type) where
  | ok (a : α)
  | opError (e : ε)
  | circuitOpenError
  deriving Repr, DecidableEq

/-- Observable outcome of one CircuitBreaker.execute call: the result,
whether the wrapped operation fn was invoked, the breaker afterwards, and
the hook events fired. -/
structure ExecOut (ε α : Type) where
  result : ExecResult ε α
  invoked : Bool
  breaker : CircuitBreaker
  events : List CBEvent
  deriving Repr, DecidableEq

/-- CircuitBreaker.execute at time now, with the operation modelled by its
outcome op. Disabled: run fn with no state access. Open: if
now - lastFailureTime >= timeout (JavaScript coerces a null
lastFailureTime to 0) move to half-open with successCount = 0 and run the
probe, else throw CircuitBreakerOpenError without invoking fn. Otherwise
run fn and do onSuccess / onFailure bookkeeping, rethrowing errors. -/
def CircuitBreaker.execute (cb : CircuitBreaker) (now : Int) (op : Except ε α) :
    ExecOut ε α :=
  if cb.config.enabled = false then
    { result := match op with
        | Except.ok a => ExecResult.ok a
        | Except.error e => ExecResult.opError e
      invoked := true
      breaker := cb
      events := [] }
  else
    let entry : Option CircuitBreaker :=
      if cb.state = CircuitState.opened then
        if cb.config.timeout ≤ now - (cb.lastFailureTime.getD 0) then
          some { cb with state := CircuitState.halfOpen, successCount := 0 }
        else
          none
      else
        some cb
    match entry with
    | none =>
        { result := ExecResult.circuitOpenError
          invoked := false
          breaker := cb
          events := [] }
    | some cb1 =>
        match op with
        | Except.ok a =>
            { result := ExecResult.ok a
              invoked := true
              breaker := cb1.onSuccess.1
              events := cb1.onSuccess.2 }
        | Except.error e =>
            { result := ExecResult.opError e
              invoked := true
              breaker := (cb1.onFailure now).1
              events := (cb1.onFailure now).2 }

/-- Snapshot returned by CircuitBreaker.getState. -/
structure CBSnapshot where
  state : CircuitState
  failureCount : Nat
  successCount : Nat
  lastFailureTime : Option Int
  deriving Repr, DecidableEq

/-- CircuitBreaker.getState: a read-only snapshot of the four state
fields. -/
def CircuitBreaker.getState (cb : CircuitBreaker) : CBSnapshot :=
  { state := cb.state
    failureCount := cb.failureCount
    successCount := cb.successCount
    lastFailureTime := cb.lastFailureTime }

/-- CircuitBreaker.reset: closed state, zero counters, null
lastFailureTime. -/
def CircuitBreaker.reset (cb : CircuitBreaker) : CircuitBreaker :=
  { cb with
    state := CircuitState.closed
    failureCount := 0
    successCount := 0
    lastFailureTime := none }

/-- Iterate n failing execute calls at a fixed time, threading the breaker
and concatenating the fired events. -/
def execFailTimes (cb : CircuitBreaker) (now : Int) : Nat → CircuitBreaker × List CBEvent
  | 0 => (cb, [])
  | n + 1 =>
      let out := cb.execute now (Except.error () : Except Unit Unit)
      let rest := execFailTimes out.breaker now n
      (rest.1, out.events ++ rest.2)

/-- Iterate n succeeding execute calls at a fixed time, threading the
breaker and concatenating the fired events. -/
def execSuccTimes (cb : CircuitBreaker) (now : Int) : Nat → CircuitBreaker × List CBEvent
  | 0 => (cb, [])
  | n + 1 =>
      let out := cb.execute now (Except.ok () : Except Unit Unit)
      let rest := execSuccTimes out.breaker now n
      (rest.1, out.events ++ rest.2)

/-- Decidable equality of Except values, needed to evaluate witnesses. -/
def exceptDecEq {ε α : Type} [DecidableEq ε] [DecidableEq α] :
    (a b : Except ε α) → Decidable (a = b)
  | Except.ok a, Except.ok b =>
      if h : a = b then Decidable.isTrue (by rw [h])
      else Decidable.isFalse (by intro hh; cases hh; exact h rfl)
  | Except.ok _, Except.error _ => Decidable.isFalse (by intro hh; cases hh)
  | Except.error _, Except.ok _ => Decidable.isFalse (by intro hh; cases hh)
  | Except.error e, Except.error f =>
      if h : e = f then Decidable.isTrue (by rw [h])
      else Decidable.isFalse (by intro hh; cases hh; exact h rfl)

instance {ε α : Type} [DecidableEq ε] [DecidableEq α] : DecidableEq (Except ε α) :=
  exceptDecEq

/-- Operations a caller can perform on a breaker: execute (at some time,
with some operation outcome), getState, or reset. -/
inductive CBOp where
  | exec (now : Int) (outcome : Except Unit Unit)
  | getStateOp
  | resetOp
  deriving Repr, DecidableEq

/-- Apply one caller operation to a breaker; getState does not mutate. -/
def CBOp.apply (cb : CircuitBreaker) : CBOp → CircuitBreaker
  | CBOp.exec now outcome => (cb.execute now outcome).breaker
  | CBOp.getStateOp => cb
  | CBOp.resetOp => cb.reset

/-- Run a sequence of caller operations from a starting breaker. -/
def runOps (cb : CircuitBreaker) : List CBOp → CircuitBreaker
  | [] => cb
  | op :: ops => runOps (CBOp.apply cb op) ops

/-- Counters invariant of the spec: failureCount and successCount are
never both nonzero. -/
def countersExclusive (cb : CircuitBreaker) : Prop :=
  cb.failureCount = 0 ∨ cb.successCount = 0

/-- Error object thrown inside the retry loop, carrying the ad hoc fields
the classifier reads: optional status, optional code, and name (set to
"TimeoutError" or "AbortError" for timeout/abort failures). -/
structure AttemptErr where
  status : Option Nat := none
  code : Option String := none
  name : String := "Error"
  deriving Repr, DecidableEq

/-- isRetryableError, with JavaScript truthiness of error.status /
error.code made explicit (a missing field, a zero status or an empty code
string is falsy): retryable status, then retryable code, then timeout or
abort name, else not retryable. -/
def isRetryableError (error : AttemptErr) (retryableStatuses : List Nat)
    (retryableErrors : List String) : Bool :=
  if (match error.status with
      | some s => s ≠ 0 && retryableStatuses.contains s
      | none => false) then
    true
  else if (match error.code with
      | some c => c ≠ "" && retryableErrors.contains c
      | none => false) then
    true
  else if error.name = "AbortError" || error.name = "TimeoutError" then
    true
  else
    false

/-- calculateDelay: exponential delay Math.min(baseDelay * 2^attempt,
maxDelay), returned as is when withJitter is false. With jitter, the
source returns Math.floor(Math.random() * exponentialDelay); the random
draw is modelled by the randomFloor parameter applied to the exponential
delay. JavaScript number arithmetic is exact here: multiplying an integer
baseDelay by the power 2^attempt only shifts the float exponent, and on
overflow the product becomes Infinity, which Math.min caps at maxDelay, so
Nat arithmetic is a faithful denotation. -/
def calculateDelay (attempt : Nat) (baseDelay : Nat) (maxDelay : Nat)
    (withJitter : Bool) (randomFloor : Nat → Nat) : Nat :=
  let exponentialDelay := min (baseDelay * 2 ^ attempt) maxDelay
  if withJitter = false then
    exponentialDelay
  else
    randomFloor exponentialDelay

/-- Merged configuration of HttpWrapper (DEFAULT_CONFIG shape minus the
three callback fields, which are modelled as events). -/
structure Config where
  timeout : Int
  maxRetries : Nat
  baseDelay : Nat
  maxDelay : Nat
  retryableStatuses : List Nat
  retryableErrors : List String
  circuitBreaker : CBConfig
  jitter : Bool
  deriving Repr, DecidableEq

/-- DEFAULT_CONFIG of the source. -/
def DEFAULT_CONFIG : Config :=
  { timeout := 30000
    maxRetries := 3
    baseDelay := 1000
    maxDelay := 30000
    retryableStatuses := [408, 429, 500, 502, 503, 504]
    retryableErrors := ["ECONNRESET", "ECONNREFUSED", "ETIMEDOUT", "ENOTFOUND"]
    circuitBreaker :=
      { enabled := true
        failureThreshold := 5
        successThreshold := 2
        timeout := 60000 }
    jitter := true }

/-- Partial configuration: the keys a caller may pass to the constructor,
to updateConfig, or per call. A some field overrides the base; spreading
an object overrides exactly the keys it carries. -/
structure ConfigOverride where
  timeout : Option Int := none
  maxRetries : Option Nat := none
  baseDelay : Option Nat := none
  maxDelay : Option Nat := none
  retryableStatuses : Option (List Nat) := none
  retryableErrors : Option (List String) := none
  circuitBreaker : Option CBConfig := none
  jitter : Option Bool := none
  deriving Repr, DecidableEq

/-- Shallow merge of an override over a base config, as the object spread
does in the constructor and in request: a present key replaces the base
value wholly, including the nested circuitBreaker object. -/
def mergeConfig (base : Config) (o : ConfigOverride) : Config :=
  { timeout := o.timeout.getD base.timeout
    maxRetries := o.maxRetries.getD base.maxRetries
    baseDelay := o.baseDelay.getD base.baseDelay
    maxDelay := o.maxDelay.getD base.maxDelay
    retryableStatuses := o.retryableStatuses.getD base.retryableStatuses
    retryableErrors := o.retryableErrors.getD base.retryableErrors
    circuitBreaker := o.circuitBreaker.getD base.circuitBreaker
    jitter := o.jitter.getD base.jitter }

/-- HttpWrapper instance: merged config plus its one circuit breaker. -/
structure HttpWrapper where
  config : Config
  circuitBreaker : CircuitBreaker
  deriving Repr, DecidableEq

/-- HttpWrapper constructor: config is the shallow merge of DEFAULT_CONFIG
and the supplied overrides; the breaker is built from the merged
circuitBreaker sub-config. The constructor performs no validation and has
no failure path. -/
def HttpWrapper.init (config : ConfigOverride) : HttpWrapper :=
  let merged := mergeConfig DEFAULT_CONFIG config
  { config := merged
    circuitBreaker := CircuitBreaker.init merged.circuitBreaker }

/-- Validity of a merged configuration, following the words of the spec of
ConfigurationError: maxDelay at least baseDelay and positive durations.
This predicate exists only to compare the spec against the source; the
source defines no such check. -/
def specValidConfig (c : Config) : Bool :=
  c.baseDelay ≤ c.maxDelay && 0 < c.timeout && 0 < c.baseDelay

/-- Observable events of one retry-loop run: an invocation of the attempt
function at an attempt index, an onRetry callback with its attemptNumber
and error, or a sleep for a computed backoff delay. -/
inductive ReqEvent where
  | attemptCall (i : Nat)
  | retry (attemptNumber : Nat) (e : AttemptErr)
  | slept (delay : Nat)
  deriving Repr, DecidableEq

/-- Body of the for loop of HttpWrapper.request, at attempt index attempt
with remaining further attempts allowed (remaining = maxRetries -
attempt): try the attempt; on success return it; on failure break when
this was the last attempt or the error is not retryable (the caught error
is thrown as lastError), else compute the delay, fire onRetry(attempt + 1,
error), sleep, and continue. randomFloor supplies the jitter draw for each
attempt index. -/
def retryLoopAux (attemptFn : Nat → Except AttemptErr α) (cfg : Config)
    (randomFloor : Nat → Nat → Nat) (attempt : Nat) :
    Nat → Except AttemptErr α × List ReqEvent
  | 0 =>
      (attemptFn attempt,
        [ReqEvent.attemptCall attempt])
  | remaining + 1 =>
      match attemptFn attempt with
      | Except.ok r => (Except.ok r, [ReqEvent.attemptCall attempt])
      | Except.error e =>
          if isRetryableError e cfg.retryableStatuses cfg.retryableErrors then
            let delay := calculateDelay attempt cfg.baseDelay cfg.maxDelay cfg.jitter
              (randomFloor attempt)
            let rest := retryLoopAux attemptFn cfg randomFloor (attempt + 1) remaining
            (rest.1,
              ReqEvent.attemptCall attempt :: ReqEvent.retry (attempt + 1) e
                :: ReqEvent.slept delay :: rest.2)
          else
            (Except.error e, [ReqEvent.attemptCall attempt])

/-- The retry loop of HttpWrapper.request: attempts run from 0 to
maxRetries inclusive; the result is the first success or the lastError in
hand when the loop breaks or finishes. -/
def retryLoop (attemptFn : Nat → Except AttemptErr α) (cfg : Config)
    (randomFloor : Nat → Nat → Nat) : Except AttemptErr α × List ReqEvent :=
  retryLoopAux attemptFn cfg randomFloor 0 cfg.maxRetries

/-- Breaker configuration for the half-open failure scenario:
failureThreshold 2, successThreshold 3, open timeout 10. -/
def cbScenarioConfig : CBConfig :=
  { enabled := true
    failureThreshold := 2
    successThreshold := 3
    timeout := 10 }

/-- Breaker driven into half-open with one intervening success: two
failures at time 0 open the circuit; at time 10 the open timeout has
elapsed, so a successful execute probes, enters half-open, and leaves
successCount = 1, below the successThreshold of 3, with failureCount reset
to 0 by the success. -/
def cbHalfOpenAfterSuccess : CircuitBreaker :=
  ((((CircuitBreaker.init cbScenarioConfig).execute 0
      (Except.error () : Except Unit Unit)).breaker.execute 0
      (Except.error () : Except Unit Unit)).breaker.execute 10
      (Except.ok () : Except Unit Unit)).breaker

/-- Running one more consecutive failing call from a closed enabled
breaker that is n+1 failures short of the threshold ends opened, with
failureCount at the threshold, successCount 0, lastFailureTime recorded,
and the onCircuitOpen hook fired exactly once over the whole run. -/
theorem execFailTimes_opens (n : Nat) :
    ∀ (cb : CircuitBreaker) (t : Int),
      cb.config.enabled = true →
      cb.state = CircuitState.closed →
      cb.failureCount + (n + 1) = cb.config.failureThreshold →
      (execFailTimes cb t (n + 1)).1.config = cb.config ∧
      (execFailTimes cb t (n + 1)).1.state = CircuitState.opened ∧
      (execFailTimes cb t (n + 1)).1.failureCount = cb.config.failureThreshold ∧
      (execFailTimes cb t (n + 1)).1.successCount = 0 ∧
      (execFailTimes cb t (n + 1)).1.lastFailureTime = some t ∧
      (execFailTimes cb t (n + 1)).2 = [CBEvent.circuitOpen] := by
  induction n with
  | zero =>
      intro cb t hen hcl hth
      have hle : cb.config.failureThreshold ≤ cb.failureCount + 1 := by omega
      simp [execFailTimes, CircuitBreaker.execute, CircuitBreaker.onFailure,
        hen, hcl, hle]
      omega
  | succ m ih =>
      intro cb t hen hcl hth
      have hlt : ¬ cb.config.failureThreshold ≤ cb.failureCount + 1 := by omega
      set cb' : CircuitBreaker :=
        { cb with
            failureCount := cb.failureCount + 1
            successCount := 0
            lastFailureTime := some t } with hcb'
      have step :
          cb.execute t (Except.error () : Except Unit Unit) =
            { result := ExecResult.opError ()
              invoked := true
              breaker := cb'
              events := [] } := by
        simp [CircuitBreaker.execute, CircuitBreaker.onFailure, hen, hcl, hlt, hcb']
      have ih' := ih cb' t (by simp [hcb', hen]) (by simp [hcb', hcl])
        (by simp [hcb']; omega)
      simpa [execFailTimes, step, hcb'] using ih'

/-- Running consecutive succeeding calls from a half-open enabled breaker
that is n+1 successes short of successThreshold ends closed, with both
counters 0, lastFailureTime untouched, and the onCircuitClose hook fired
exactly once over the whole run. -/
theorem execSuccTimes_closes (n : Nat) :
    ∀ (cb : CircuitBreaker) (t : Int),
      cb.config.enabled = true →
      cb.state = CircuitState.halfOpen →
      cb.successCount + (n + 1) = cb.config.successThreshold →
      (execSuccTimes cb t (n + 1)).1.config = cb.config ∧
      (execSuccTimes cb t (n + 1)).1.state = CircuitState.closed ∧
      (execSuccTimes cb t (n + 1)).1.failureCount = 0 ∧
      (execSuccTimes cb t (n + 1)).1.successCount = 0 ∧
      (execSuccTimes cb t (n + 1)).1.lastFailureTime = cb.lastFailureTime ∧
      (execSuccTimes cb t (n + 1)).2 = [CBEvent.circuitClose] := by
  induction n with
  | zero =>
      intro cb t hen hho hth
      have hle : cb.config.successThreshold ≤ cb.successCount + 1 := by omega
      simp [execSuccTimes, CircuitBreaker.execute, CircuitBreaker.onSuccess,
        hen, hho, hle]
  | succ m ih =>
      intro cb t hen hho hth
      have hlt : ¬ cb.config.successThreshold ≤ cb.successCount + 1 := by omega
      set cb' : CircuitBreaker :=
        { cb with
            failureCount := 0
            successCount := cb.successCount + 1 } with hcb'
      have step :
          cb.execute t (Except.ok () : Except Unit Unit) =
            { result := ExecResult.ok ()
              invoked := true
              breaker := cb'
              events := [] } := by
        simp [CircuitBreaker.execute, CircuitBreaker.onSuccess, hen, hho, hlt, hcb']
      have ih' := ih cb' t (by simp [hcb', hen]) (by simp [hcb', hho])
        (by simp [hcb']; omega)
      simpa [execSuccTimes, step, hcb'] using ih'

/-- Running n consecutive succeeding calls from a closed enabled breaker
stays closed, adds n to successCount, zeroes failureCount once n is
positive, leaves lastFailureTime untouched, and fires no hooks. -/
theorem execSuccTimes_closed_grows (n : Nat) :
    ∀ (cb : CircuitBreaker) (t : Int),
      cb.config.enabled = true →
      cb.state = CircuitState.closed →
      (execSuccTimes cb t n).1.config = cb.config ∧
      (execSuccTimes cb t n).1.state = CircuitState.closed ∧
      (execSuccTimes cb t n).1.successCount = cb.successCount + n ∧
      (execSuccTimes cb t n).1.lastFailureTime = cb.lastFailureTime ∧
      (execSuccTimes cb t n).2 = [] := by
  induction n with
  | zero =>
      intro cb t hen hcl
      simp [execSuccTimes, hcl]
  | succ m ih =>
      intro cb t hen hcl
      set cb' : CircuitBreaker :=
        { cb with
            failureCount := 0
            successCount := cb.successCount + 1 } with hcb'
      have step :
          cb.execute t (Except.ok () : Except Unit Unit) =
            { result := ExecResult.ok ()
              invoked := true
              breaker := cb'
              events := [] } := by
        simp [CircuitBreaker.execute, CircuitBreaker.onSuccess, hen, hcl, hcb']
      have ih' := ih cb' t (by simp [hcb', hen]) (by simp [hcb', hcl])
      refine ⟨?_, ?_, ?_, ?_, ?_⟩
      · simpa [execSuccTimes, step, hcb'] using ih'.1
      · simpa [execSuccTimes, step] using ih'.2.1
      · have h3 := ih'.2.2.1
        simp [execSuccTimes, step, hcb'] at h3 ⊢
        omega
      · simpa [execSuccTimes, step, hcb'] using ih'.2.2.2.1
      · simpa [execSuccTimes, step] using ih'.2.2.2.2

/-- Step lemma: while the circuit is open and the open timeout has not
elapsed, execute rejects with CircuitBreakerOpenError without running the
operation, without mutating the breaker, and without firing hooks. -/
theorem execute_open_rejects {ε α : Type} (cb : CircuitBreaker) (now : Int)
    (op : Except ε α)
    (hen : cb.config.enabled = true)
    (hop : cb.state = CircuitState.opened)
    (ht : now - cb.lastFailureTime.getD 0 < cb.config.timeout) :
    cb.execute now op =
      { result := ExecResult.circuitOpenError
        invoked := false
        breaker := cb
        events := [] } := by
  have h : ¬ cb.config.timeout ≤ now - cb.lastFailureTime.getD 0 := by omega
  simp [CircuitBreaker.execute, hen, hop, h]

/-- Step lemma: when the circuit is open and the open timeout has elapsed,
execute enters half-open with successCount reset to 0 and runs the
operation as the probe; on a successful probe the outcome is exactly the
onSuccess bookkeeping of the entered half-open state. -/
theorem execute_open_probe_ok {ε α : Type} (cb : CircuitBreaker) (now : Int) (a : α)
    (hen : cb.config.enabled = true)
    (hop : cb.state = CircuitState.opened)
    (ht : cb.config.timeout ≤ now - cb.lastFailureTime.getD 0) :
    cb.execute now (Except.ok a : Except ε α) =
      { result := ExecResult.ok a
        invoked := true
        breaker := ({ cb with state := CircuitState.halfOpen, successCount := 0 }
          : CircuitBreaker).onSuccess.1
        events := ({ cb with state := CircuitState.halfOpen, successCount := 0 }
          : CircuitBreaker).onSuccess.2 } := by
  simp [CircuitBreaker.execute, hen, hop, ht]

/-- Step lemma: when the circuit is open and the open timeout has elapsed,
a failing probe yields exactly the onFailure bookkeeping of the entered
half-open state. -/
theorem execute_open_probe_err {ε α : Type} (cb : CircuitBreaker) (now : Int) (e : ε)
    (hen : cb.config.enabled = true)
    (hop : cb.state = CircuitState.opened)
    (ht : cb.config.timeout ≤ now - cb.lastFailureTime.getD 0) :
    cb.execute now (Except.error e : Except ε α) =
      { result := ExecResult.opError e
        invoked := true
        breaker := (({ cb with state := CircuitState.halfOpen, successCount := 0 }
          : CircuitBreaker).onFailure now).1
        events := (({ cb with state := CircuitState.halfOpen, successCount := 0 }
          : CircuitBreaker).onFailure now).2 } := by
  simp [CircuitBreaker.execute, hen, hop, ht]

/-- Step lemma: an execute on an enabled breaker not in the open state
runs the operation directly; a success is the onSuccess bookkeeping. -/
theorem execute_notOpen_ok {ε α : Type} (cb : CircuitBreaker) (now : Int) (a : α)
    (hen : cb.config.enabled = true)
    (hnop : cb.state ≠ CircuitState.opened) :
    cb.execute now (Except.ok a : Except ε α) =
      { result := ExecResult.ok a
        invoked := true
        breaker := cb.onSuccess.1
        events := cb.onSuccess.2 } := by
  simp [CircuitBreaker.execute, hen, hnop]

/-- Step lemma: an execute on an enabled breaker not in the open state
runs the operation directly; a failure is the onFailure bookkeeping. -/
theorem execute_notOpen_err {ε α : Type} (cb : CircuitBreaker) (now : Int) (e : ε)
    (hen : cb.config.enabled = true)
    (hnop : cb.state ≠ CircuitState.opened) :
    cb.execute now (Except.error e : Except ε α) =
      { result := ExecResult.opError e
        invoked := true
        breaker := (cb.onFailure now).1
        events := (cb.onFailure now).2 } := by
  simp [CircuitBreaker.execute, hen, hnop]

/-- The onFailure bookkeeping always records lastFailureTime = now. -/
theorem onFailure_lastFailureTime (cb : CircuitBreaker) (now : Int) :
    (cb.onFailure now).1.lastFailureTime = some now := by
  simp only [CircuitBreaker.onFailure]
  split
  · split <;> rfl
  · rfl

/-- The onFailure bookkeeping always increments failureCount. -/
theorem onFailure_failureCount (cb : CircuitBreaker) (now : Int) :
    (cb.onFailure now).1.failureCount = cb.failureCount + 1 := by
  simp only [CircuitBreaker.onFailure]
  split
  · split <;> rfl
  · rfl

/-- The onSuccess bookkeeping yields successCount 0 only on the half-open
to closed transition, which fires the onCircuitClose hook. -/
theorem onSuccess_zero_closes (cb : CircuitBreaker)
    (h : cb.onSuccess.1.successCount = 0) :
    cb.onSuccess.2 = [CBEvent.circuitClose] := by
  revert h
  simp only [CircuitBreaker.onSuccess]
  split
  · split
    · intro _; rfl
    · intro h; simp at h
  · intro h; simp at h

/-- The onSuccess bookkeeping always leaves failureCount at 0. -/
theorem onSuccess_failureCount (cb : CircuitBreaker) :
    cb.onSuccess.1.failureCount = 0 := by
  simp only [CircuitBreaker.onSuccess]
  split
  · split <;> rfl
  · rfl

/-- The onFailure bookkeeping always leaves successCount at 0. -/
theorem onFailure_successCount (cb : CircuitBreaker) (now : Int) :
    (cb.onFailure now).1.successCount = 0 := by
  simp only [CircuitBreaker.onFailure]
  split
  · split <;> rfl
  · rfl

/-- The breaker after an execute call is either unchanged, or the result
of an onSuccess bookkeeping, or the result of an onFailure bookkeeping. -/
theorem execute_breaker_cases {ε α : Type} (cb : CircuitBreaker) (now : Int)
    (op : Except ε α) :
    (cb.execute now op).breaker = cb ∨
    (∃ c : CircuitBreaker, (cb.execute now op).breaker = c.onSuccess.1) ∨
    (∃ c : CircuitBreaker, (cb.execute now op).breaker = (c.onFailure now).1) := by
  by_cases hen : cb.config.enabled = false
  · left
    simp [CircuitBreaker.execute, hen]
  · have hen' : cb.config.enabled = true := by
      cases h : cb.config.enabled
      · exact absurd h hen
      · rfl
    by_cases hop : cb.state = CircuitState.opened
    · by_cases ht : cb.config.timeout ≤ now - cb.lastFailureTime.getD 0
      · cases op with
        | ok a =>
            right; left
            refine ⟨{ cb with state := CircuitState.halfOpen, successCount := 0 }, ?_⟩
            simp [CircuitBreaker.execute, hen', hop, ht]
        | error e =>
            right; right
            refine ⟨{ cb with state := CircuitState.halfOpen, successCount := 0 }, ?_⟩
            simp [CircuitBreaker.execute, hen', hop, ht]
      · left
        simp [CircuitBreaker.execute, hen', hop, ht]
    · cases op with
      | ok a =>
          right; left
          refine ⟨cb, ?_⟩
          simp [CircuitBreaker.execute, hen', hop]
      | error e =>
          right; right
          refine ⟨cb, ?_⟩
          simp [CircuitBreaker.execute, hen', hop]

/-- Every single caller operation preserves the counters invariant. -/
theorem countersExclusive_apply (cb : CircuitBreaker) (op : CBOp)
    (h : countersExclusive cb) : countersExclusive (CBOp.apply cb op) := by
  cases op with
  | exec now outcome =>
      rcases execute_breaker_cases cb now outcome with hc | ⟨c, hc⟩ | ⟨c, hc⟩
      · simpa [CBOp.apply, hc] using h
      · left
        simp [CBOp.apply, hc, onSuccess_failureCount]
      · right
        simp [CBOp.apply, hc, onFailure_successCount]
  | getStateOp => simpa [CBOp.apply] using h
  | resetOp => left; simp [CBOp.apply, CircuitBreaker.reset]

/-- The counters invariant holds after any operation sequence from an
invariant-satisfying start. -/
theorem countersExclusive_runOps (ops : List CBOp) :
    ∀ cb : CircuitBreaker, countersExclusive cb → countersExclusive (runOps cb ops) := by
  induction ops with
  | nil => intro cb h; simpa [runOps] using h
  | cons op ops ih =>
      intro cb h
      simpa [runOps] using ih (CBOp.apply cb op) (countersExclusive_apply cb op h)

/-- C6: in every state reachable from the initial breaker by any sequence
of execute (with any outcomes and times), getState and reset calls,
failureCount and successCount are never both nonzero. -/
theorem counters_never_both_nonzero (cfg : CBConfig) (ops : List CBOp) :
    (runOps (CircuitBreaker.init cfg) ops).failureCount = 0 ∨
    (runOps (CircuitBreaker.init cfg) ops).successCount = 0 :=
  countersExclusive_runOps ops (CircuitBreaker.init cfg) (Or.inl rfl)

/-- C7: for every attempt and every baseDelay > 0 with maxDelay at least
baseDelay, calculateDelay without jitter equals min(baseDelay * 2^attempt,
maxDelay); in particular it never exceeds maxDelay, and once the
exponential term meets or exceeds maxDelay the result is capped at
maxDelay, so arbitrarily large attempts are safe. -/
theorem calculateDelay_noJitter_min (attempt baseDelay maxDelay : Nat)
    (randomFloor : Nat → Nat)
    (hb : 0 < baseDelay) (hm : baseDelay ≤ maxDelay) :
    calculateDelay attempt baseDelay maxDelay false randomFloor
        = min (baseDelay * 2 ^ attempt) maxDelay ∧
    calculateDelay attempt baseDelay maxDelay false randomFloor ≤ maxDelay ∧
    (maxDelay ≤ baseDelay * 2 ^ attempt →
      calculateDelay attempt baseDelay maxDelay false randomFloor = maxDelay) := by
  refine ⟨rfl, ?_, ?_⟩
  · simp [calculateDelay]
  · intro h
    simp [calculateDelay, Nat.min_eq_right h]

/-- Witness for C7 at attempt 300, where the uncapped exponential term is
astronomically larger than maxDelay. -/
theorem calculateDelay_noJitter_min_witness :
    0 < 1000 ∧ 1000 ≤ 30000 ∧
    calculateDelay 300 1000 30000 false (fun x => x) = 30000 := by
  refine ⟨by decide, by decide, ?_⟩
  exact (calculateDelay_noJitter_min 300 1000 30000 (fun x => x)
    (by decide) (by decide)).2.2 (by norm_num)

/-- C8: an error whose name marks a timeout or an abort is retryable for
every configuration of the retryable status and error-code sets. -/
theorem isRetryableError_timeout_abort (e : AttemptErr)
    (retryableStatuses : List Nat) (retryableErrors : List String)
    (h : e.name = "TimeoutError" ∨ e.name = "AbortError") :
    isRetryableError e retryableStatuses retryableErrors = true := by
  simp only [isRetryableError]
  split
  · rfl
  · split
    · rfl
    · rcases h with h | h <;> simp [h]

/-- Witness for C8: a timeout error carrying a status and a code that are
in no configured set, with both sets empty, is still retryable. -/
theorem isRetryableError_timeout_abort_witness :
    (({ status := some 500, code := some "EX", name := "TimeoutError" }
        : AttemptErr).name = "TimeoutError" ∨
      ({ status := some 500, code := some "EX", name := "TimeoutError" }
        : AttemptErr).name = "AbortError") ∧
    isRetryableError { status := some 500, code := some "EX", name := "TimeoutError" }
      [] [] = true :=
  ⟨Or.inl rfl,
    isRetryableError_timeout_abort _ [] [] (Or.inl rfl)⟩

/-- C4: with maxRetries = 3, retryable failures on attempts 0, 1, 2 and a
success on attempt 3, the loop returns the success and the full event
trace shows onRetry fired exactly three times, with attemptNumber 1, 2, 3
in order, each immediately before the corresponding backoff sleep. -/
theorem retryLoop_threeRetries_succeeds {α : Type} (cfg : Config)
    (attemptFn : Nat → Except AttemptErr α)
    (e0 e1 e2 : AttemptErr) (r : α) (randomFloor : Nat → Nat → Nat)
    (hmr : cfg.maxRetries = 3)
    (h0 : attemptFn 0 = Except.error e0)
    (h1 : attemptFn 1 = Except.error e1)
    (h2 : attemptFn 2 = Except.error e2)
    (h3 : attemptFn 3 = Except.ok r)
    (hr0 : isRetryableError e0 cfg.retryableStatuses cfg.retryableErrors = true)
    (hr1 : isRetryableError e1 cfg.retryableStatuses cfg.retryableErrors = true)
    (hr2 : isRetryableError e2 cfg.retryableStatuses cfg.retryableErrors = true) :
    retryLoop attemptFn cfg randomFloor =
      (Except.ok r,
        [ReqEvent.attemptCall 0, ReqEvent.retry 1 e0,
         ReqEvent.slept
           (calculateDelay 0 cfg.baseDelay cfg.maxDelay cfg.jitter (randomFloor 0)),
         ReqEvent.attemptCall 1, ReqEvent.retry 2 e1,
         ReqEvent.slept
           (calculateDelay 1 cfg.baseDelay cfg.maxDelay cfg.jitter (randomFloor 1)),
         ReqEvent.attemptCall 2, ReqEvent.retry 3 e2,
         ReqEvent.slept
           (calculateDelay 2 cfg.baseDelay cfg.maxDelay cfg.jitter (randomFloor 2)),
         ReqEvent.attemptCall 3]) := by
  simp [retryLoop, hmr, retryLoopAux, h0, h1, h2, h3, hr0, hr1, hr2]

/-- Witness for C4 with the default configuration, always-zero jitter
draws, timeout errors on the first three attempts and a success on the
fourth. -/
theorem retryLoop_threeRetries_succeeds_witness :
    DEFAULT_CONFIG.maxRetries = 3 ∧
    retryLoop
        (fun i => if i < 3 then Except.error { name := "TimeoutError" }
          else Except.ok (7 : Nat))
        DEFAULT_CONFIG (fun _ _ => 0) =
      (Except.ok 7,
        [ReqEvent.attemptCall 0, ReqEvent.retry 1 { name := "TimeoutError" },
         ReqEvent.slept
           (calculateDelay 0 DEFAULT_CONFIG.baseDelay DEFAULT_CONFIG.maxDelay
             DEFAULT_CONFIG.jitter ((fun _ _ => (0 : Nat)) 0)),
         ReqEvent.attemptCall 1, ReqEvent.retry 2 { name := "TimeoutError" },
         ReqEvent.slept
           (calculateDelay 1 DEFAULT_CONFIG.baseDelay DEFAULT_CONFIG.maxDelay
             DEFAULT_CONFIG.jitter ((fun _ _ => (0 : Nat)) 1)),
         ReqEvent.attemptCall 2, ReqEvent.retry 3 { name := "TimeoutError" },
         ReqEvent.slept
           (calculateDelay 2 DEFAULT_CONFIG.baseDelay DEFAULT_CONFIG.maxDelay
             DEFAULT_CONFIG.jitter ((fun _ _ => (0 : Nat)) 2)),
         ReqEvent.attemptCall 3]) :=
  ⟨rfl,
    retryLoop_threeRetries_succeeds DEFAULT_CONFIG
      (fun i => if i < 3 then Except.error { name := "TimeoutError" }
        else Except.ok (7 : Nat))
      { name := "TimeoutError" } { name := "TimeoutError" } { name := "TimeoutError" }
      7 (fun _ _ => 0) rfl rfl rfl rfl rfl (by decide) (by decide) (by decide)⟩

/-- C5: with maxRetries = 2 and a non-retryable failure on the first
attempt, the loop stops immediately: exactly one attempt-function
invocation appears in the trace, no onRetry event and no sleep occur, and
the error of that single (first) attempt is surfaced. -/
theorem retryLoop_nonRetryable_stops {α : Type} (cfg : Config)
    (attemptFn : Nat → Except AttemptErr α) (e : AttemptErr)
    (randomFloor : Nat → Nat → Nat)
    (hmr : cfg.maxRetries = 2)
    (h0 : attemptFn 0 = Except.error e)
    (hnr : isRetryableError e cfg.retryableStatuses cfg.retryableErrors = false) :
    retryLoop attemptFn cfg randomFloor = (Except.error e, [ReqEvent.attemptCall 0]) := by
  simp [retryLoop, hmr, retryLoopAux, h0, hnr]

/-- Witness for C5: a 404 error with empty retryable sets under the default
configuration restricted to maxRetries = 2. -/
theorem retryLoop_nonRetryable_stops_witness :
    ({ DEFAULT_CONFIG with
        maxRetries := 2
        retryableStatuses := []
        retryableErrors := [] } : Config).maxRetries = 2 ∧
    retryLoop (fun _ => Except.error { status := some 404 } : Nat → Except AttemptErr Nat)
        { DEFAULT_CONFIG with
            maxRetries := 2
            retryableStatuses := []
            retryableErrors := [] }
        (fun _ _ => 0) =
      (Except.error { status := some 404 }, [ReqEvent.attemptCall 0]) :=
  ⟨rfl,
    retryLoop_nonRetryable_stops
      { DEFAULT_CONFIG with
          maxRetries := 2
          retryableStatuses := []
          retryableErrors := [] }
      (fun _ => Except.error { status := some 404 })
      { status := some 404 } (fun _ _ => 0) rfl rfl (by decide)⟩

/-- Counterexample to C2: overriding baseDelay to 40000 makes the merged
configuration invalid (maxDelay 30000 < baseDelay 40000), yet construction
completes normally and yields a wrapper holding that invalid merged
configuration — the constructor is a total merge with no validation and no
failure path, so no ConfigurationError is raised at construction or merge
time. -/
theorem construct_invalid_accepted_counterexample :
    specValidConfig (HttpWrapper.init { baseDelay := some 40000 }).config = false ∧
    (HttpWrapper.init { baseDelay := some 40000 }).config.maxDelay
      < (HttpWrapper.init { baseDelay := some 40000 }).config.baseDelay := by
  decide

/-- C2 amended: construction performs no validation at all — even when the
merged configuration is invalid in the spec's sense, the constructor
succeeds and installs the shallow merge of DEFAULT_CONFIG and the
overrides unchanged, together with a breaker built from its circuitBreaker
sub-config; no error is ever raised before a request. -/
theorem construct_no_validation (o : ConfigOverride)
    (h : specValidConfig (mergeConfig DEFAULT_CONFIG o) = false) :
    (HttpWrapper.init o).config = mergeConfig DEFAULT_CONFIG o ∧
    (HttpWrapper.init o).circuitBreaker
      = CircuitBreaker.init (mergeConfig DEFAULT_CONFIG o).circuitBreaker :=
  ⟨rfl, rfl⟩

/-- Witness for the amended C2 at the invalid override of the
counterexample. -/
theorem construct_no_validation_witness :
    specValidConfig (mergeConfig DEFAULT_CONFIG { baseDelay := some 40000 }) = false ∧
    (HttpWrapper.init { baseDelay := some 40000 }).config
      = mergeConfig DEFAULT_CONFIG { baseDelay := some 40000 } :=
  ⟨by decide, (construct_no_validation { baseDelay := some 40000 } (by decide)).1⟩

/-- C10: every failed execute that actually runs the operation on an
enabled breaker records lastFailureTime = now, also when failureCount
stays below the threshold and no state transition occurs. -/
theorem execute_failure_records_time {ε α : Type} (cb : CircuitBreaker) (now : Int)
    (e : ε)
    (hen : cb.config.enabled = true)
    (hinv : (cb.execute now (Except.error e : Except ε α)).invoked = true) :
    (cb.execute now (Except.error e : Except ε α)).breaker.lastFailureTime
      = some now := by
  by_cases hop : cb.state = CircuitState.opened
  · by_cases ht : cb.config.timeout ≤ now - cb.lastFailureTime.getD 0
    · rw [execute_open_probe_err cb now e hen hop ht]
      exact onFailure_lastFailureTime _ now
    · rw [execute_open_rejects cb now (Except.error e) hen hop (by omega)] at hinv
      cases hinv
  · rw [execute_notOpen_err cb now e hen hop]
    exact onFailure_lastFailureTime _ now

/-- Witness for C10: the first failure on a fresh breaker with the default
circuit configuration, far below the threshold, still records the time. -/
theorem execute_failure_records_time_witness :
    (CircuitBreaker.init DEFAULT_CONFIG.circuitBreaker).config.enabled = true ∧
    ((CircuitBreaker.init DEFAULT_CONFIG.circuitBreaker).execute 42
      (Except.error () : Except Unit Unit)).invoked = true ∧
    ((CircuitBreaker.init DEFAULT_CONFIG.circuitBreaker).execute 42
      (Except.error () : Except Unit Unit)).breaker.lastFailureTime = some 42 :=
  ⟨rfl, by decide,
    execute_failure_records_time (CircuitBreaker.init DEFAULT_CONFIG.circuitBreaker)
      42 () rfl (by decide)⟩

/-- Counterexample to C1: in a reachable half-open state in which one
success (fewer than successThreshold) occurred earlier in the same
half-open period, a single failed execute leaves the state half-open
rather than transitioning back to open, because the success reset
failureCount to 0 and onFailure reopens only once failureCount reaches
failureThreshold again. successCount is still reset to 0. -/
theorem halfOpen_single_failure_counterexample :
    cbHalfOpenAfterSuccess.config.enabled = true ∧
    cbHalfOpenAfterSuccess.state = CircuitState.halfOpen ∧
    cbHalfOpenAfterSuccess.successCount = 1 ∧
    cbHalfOpenAfterSuccess.successCount < cbScenarioConfig.successThreshold ∧
    cbHalfOpenAfterSuccess.failureCount = 0 ∧
    (cbHalfOpenAfterSuccess.execute 10
      (Except.error () : Except Unit Unit)).invoked = true ∧
    (cbHalfOpenAfterSuccess.execute 10
      (Except.error () : Except Unit Unit)).breaker.successCount = 0 ∧
    (cbHalfOpenAfterSuccess.execute 10
      (Except.error () : Except Unit Unit)).breaker.state = CircuitState.halfOpen ∧
    (cbHalfOpenAfterSuccess.execute 10
      (Except.error () : Except Unit Unit)).breaker.state ≠ CircuitState.opened := by
  decide

/-- C1 amended: a failed execute in half-open on an enabled breaker resets
successCount to 0, records lastFailureTime, increments failureCount, and
transitions back to open exactly when the incremented failureCount reaches
failureThreshold — which holds whenever no success intervened since the
circuit opened (failureCount then still carries the pre-open tally), but
fails after an intervening success reset failureCount. -/
theorem halfOpen_failure_amended {ε α : Type} (cb : CircuitBreaker) (now : Int)
    (e : ε)
    (hen : cb.config.enabled = true)
    (hho : cb.state = CircuitState.halfOpen) :
    (cb.execute now (Except.error e : Except ε α)).breaker.successCount = 0 ∧
    (cb.execute now (Except.error e : Except ε α)).breaker.lastFailureTime
      = some now ∧
    (cb.execute now (Except.error e : Except ε α)).breaker.failureCount
      = cb.failureCount + 1 ∧
    ((cb.execute now (Except.error e : Except ε α)).breaker.state
        = CircuitState.opened ↔
      cb.config.failureThreshold ≤ cb.failureCount + 1) := by
  have hnop : cb.state ≠ CircuitState.opened := by
    rw [hho]
    intro h
    cases h
  rw [execute_notOpen_err cb now e hen hnop]
  refine ⟨onFailure_successCount cb now, onFailure_lastFailureTime cb now,
    onFailure_failureCount cb now, ?_⟩
  by_cases hth : cb.config.failureThreshold ≤ cb.failureCount + 1
  · simp [CircuitBreaker.onFailure, hth, hho]
  · simp [CircuitBreaker.onFailure, hth, hho]

/-- Witness for the amended C1 at the half-open breaker with one
intervening success: the failure keeps the breaker half-open since
failureCount restarts at 1 < failureThreshold = 2. -/
theorem halfOpen_failure_amended_witness :
    cbHalfOpenAfterSuccess.config.enabled = true ∧
    ((cbHalfOpenAfterSuccess.execute 10
        (Except.error () : Except Unit Unit)).breaker.successCount = 0 ∧
     (cbHalfOpenAfterSuccess.execute 10
        (Except.error () : Except Unit Unit)).breaker.lastFailureTime = some 10 ∧
     (cbHalfOpenAfterSuccess.execute 10
        (Except.error () : Except Unit Unit)).breaker.failureCount
        = cbHalfOpenAfterSuccess.failureCount + 1 ∧
     ((cbHalfOpenAfterSuccess.execute 10
          (Except.error () : Except Unit Unit)).breaker.state = CircuitState.opened ↔
       cbHalfOpenAfterSuccess.config.failureThreshold
         ≤ cbHalfOpenAfterSuccess.failureCount + 1)) :=
  ⟨by decide, halfOpen_failure_amended cbHalfOpenAfterSuccess 10 () (by decide) (by decide)⟩

/-- C9: in the closed state every successful execute increments
successCount without resetting it, so n successes grow the count reported
by getState by n with the state staying closed and no hooks fired; and a
successful execute that runs the operation can zero successCount only via
the half-open to closed transition (failures, reset, and entering
half-open are the other writes of 0, each visible in its own path). -/
theorem closed_success_growth (cb : CircuitBreaker) (t : Int) (n : Nat)
    (hen : cb.config.enabled = true)
    (hcl : cb.state = CircuitState.closed) :
    ((execSuccTimes cb t n).1.state = CircuitState.closed ∧
     (execSuccTimes cb t n).1.successCount = cb.successCount + n ∧
     (execSuccTimes cb t n).1.getState.successCount = cb.successCount + n ∧
     (execSuccTimes cb t n).2 = []) ∧
    (∀ (c : CircuitBreaker) (now : Int),
      c.config.enabled = true →
      (c.execute now (Except.ok () : Except Unit Unit)).invoked = true →
      (c.execute now (Except.ok () : Except Unit Unit)).breaker.successCount = 0 →
      (c.execute now (Except.ok () : Except Unit Unit)).events
        = [CBEvent.circuitClose]) := by
  constructor
  · have h := execSuccTimes_closed_grows n cb t hen hcl
    exact ⟨h.2.1, h.2.2.1, by simp [CircuitBreaker.getState, h.2.2.1], h.2.2.2.2⟩
  · intro c now hen' hinv h0
    by_cases hop : c.state = CircuitState.opened
    · by_cases ht : c.config.timeout ≤ now - c.lastFailureTime.getD 0
      · rw [execute_open_probe_ok c now () hen' hop ht] at h0 ⊢
        exact onSuccess_zero_closes _ h0
      · rw [execute_open_rejects c now _ hen' hop (by omega)] at hinv
        cases hinv
    · rw [execute_notOpen_ok c now () hen' hop] at h0 ⊢
      exact onSuccess_zero_closes _ h0

/-- Witness for C9: three successes on a fresh default breaker grow
successCount to 3 while staying closed, and a success on a half-open
breaker one success short of its threshold zeroes the count exactly by
closing the circuit. -/
theorem closed_success_growth_witness :
    (CircuitBreaker.init DEFAULT_CONFIG.circuitBreaker).config.enabled = true ∧
    (execSuccTimes (CircuitBreaker.init DEFAULT_CONFIG.circuitBreaker) 0 3).1.state
      = CircuitState.closed ∧
    (execSuccTimes (CircuitBreaker.init DEFAULT_CONFIG.circuitBreaker) 0 3).1.successCount
      = (CircuitBreaker.init DEFAULT_CONFIG.circuitBreaker).successCount + 3 ∧
    (({ config := ⟨true, 5, 1, 60000⟩
        state := CircuitState.halfOpen
        failureCount := 0
        successCount := 0
        lastFailureTime := some 0 } : CircuitBreaker).execute 7
      (Except.ok () : Except Unit Unit)).events = [CBEvent.circuitClose] :=
  ⟨rfl,
   (closed_success_growth (CircuitBreaker.init DEFAULT_CONFIG.circuitBreaker) 0 3
      rfl rfl).1.1,
   (closed_success_growth (CircuitBreaker.init DEFAULT_CONFIG.circuitBreaker) 0 3
      rfl rfl).1.2.1,
   (closed_success_growth (CircuitBreaker.init DEFAULT_CONFIG.circuitBreaker) 0 3
      rfl rfl).2
     { config := ⟨true, 5, 1, 60000⟩
       state := CircuitState.halfOpen
       failureCount := 0
       successCount := 0
       lastFailureTime := some 0 } 7 rfl (by decide) (by decide)⟩

/-- C3: full breaker lifecycle from the initial closed state with zero
counters. Exactly failureThreshold consecutive failed executes at time t0
open the circuit with the onCircuitOpen hook fired exactly once; while
open, any execute at a time t1 before the open timeout elapses yields the
distinguished circuit-open error without invoking the operation and
without mutating the breaker; the first execute at a time t2 at or past
the timeout enters half-open with successCount reset to 0 and runs the
operation as the probe (a successful probe is exactly the onSuccess
bookkeeping of the entered half-open state); and successThreshold
consecutive successful executes from that entered half-open state close
the circuit, firing onCircuitClose once. -/
theorem circuit_lifecycle (cfg : CBConfig) (t0 t1 t2 : Int)
    (hen : cfg.enabled = true)
    (hF : 1 ≤ cfg.failureThreshold)
    (hS : 1 ≤ cfg.successThreshold)
    (h1 : t1 - t0 < cfg.timeout)
    (h2 : cfg.timeout ≤ t2 - t0) :
    (execFailTimes (CircuitBreaker.init cfg) t0 cfg.failureThreshold).1.state
      = CircuitState.opened ∧
    (execFailTimes (CircuitBreaker.init cfg) t0 cfg.failureThreshold).2
      = [CBEvent.circuitOpen] ∧
    (∀ op : Except Unit Unit,
      ((execFailTimes (CircuitBreaker.init cfg) t0 cfg.failureThreshold).1.execute
          t1 op).result = ExecResult.circuitOpenError ∧
      ((execFailTimes (CircuitBreaker.init cfg) t0 cfg.failureThreshold).1.execute
          t1 op).invoked = false ∧
      ((execFailTimes (CircuitBreaker.init cfg) t0 cfg.failureThreshold).1.execute
          t1 op).breaker
        = (execFailTimes (CircuitBreaker.init cfg) t0 cfg.failureThreshold).1 ∧
      ((execFailTimes (CircuitBreaker.init cfg) t0 cfg.failureThreshold).1.execute
          t1 op).events = []) ∧
    (((execFailTimes (CircuitBreaker.init cfg) t0 cfg.failureThreshold).1.execute
        t2 (Except.ok () : Except Unit Unit)).invoked = true ∧
     ((execFailTimes (CircuitBreaker.init cfg) t0 cfg.failureThreshold).1.execute
        t2 (Except.ok () : Except Unit Unit)).breaker
       = ({ (execFailTimes (CircuitBreaker.init cfg) t0 cfg.failureThreshold).1 with
            state := CircuitState.halfOpen
            successCount := 0 } : CircuitBreaker).onSuccess.1 ∧
     ((execFailTimes (CircuitBreaker.init cfg) t0 cfg.failureThreshold).1.execute
        t2 (Except.ok () : Except Unit Unit)).events
       = ({ (execFailTimes (CircuitBreaker.init cfg) t0 cfg.failureThreshold).1 with
            state := CircuitState.halfOpen
            successCount := 0 } : CircuitBreaker).onSuccess.2) ∧
    ((execSuccTimes
        { (execFailTimes (CircuitBreaker.init cfg) t0 cfg.failureThreshold).1 with
          state := CircuitState.halfOpen
          successCount := 0 } t2 cfg.successThreshold).1.state
        = CircuitState.closed ∧
     (execSuccTimes
        { (execFailTimes (CircuitBreaker.init cfg) t0 cfg.failureThreshold).1 with
          state := CircuitState.halfOpen
          successCount := 0 } t2 cfg.successThreshold).2
        = [CBEvent.circuitClose]) := by
  obtain ⟨n, hn⟩ : ∃ n, cfg.failureThreshold = n + 1 :=
    ⟨cfg.failureThreshold - 1, by omega⟩
  obtain ⟨m, hm⟩ : ∃ m, cfg.successThreshold = m + 1 :=
    ⟨cfg.successThreshold - 1, by omega⟩
  rw [hn, hm]
  obtain ⟨hc, hst, hfc, hsc, hlt, hev⟩ :=
    execFailTimes_opens n (CircuitBreaker.init cfg) t0 hen rfl
      (by simp [CircuitBreaker.init, hn])
  refine ⟨hst, hev, ?_, ?_, ?_⟩
  · intro op
    rw [execute_open_rejects _ t1 op (by rw [hc]; exact hen) hst
      (by rw [hlt, hc]; simpa using h1)]
    exact ⟨rfl, rfl, rfl, rfl⟩
  · rw [execute_open_probe_ok _ t2 () (by rw [hc]; exact hen) hst
      (by rw [hlt, hc]; simpa using h2)]
    exact ⟨rfl, rfl, rfl⟩
  · have hb2 := execSuccTimes_closes m
      { (execFailTimes (CircuitBreaker.init cfg) t0 (n + 1)).1 with
        state := CircuitState.halfOpen
        successCount := 0 } t2
      (by
        show (execFailTimes (CircuitBreaker.init cfg) t0 (n + 1)).1.config.enabled
          = true
        rw [hc]
        exact hen)
      rfl
      (by
        show 0 + (m + 1)
          = (execFailTimes (CircuitBreaker.init cfg) t0 (n + 1)).1.config.successThreshold
        rw [hc]
        simp [CircuitBreaker.init, hm])
    exact ⟨hb2.2.1, hb2.2.2.2.2.2⟩

/-- Witness for C3 with an enabled breaker (thresholds 2 and 2, open
timeout 10), failures at time 0, a rejected call at time 5, and probing
from time 10. -/
theorem circuit_lifecycle_witness :
    ((⟨true, 2, 2, 10⟩ : CBConfig).enabled = true ∧
      1 ≤ (⟨true, 2, 2, 10⟩ : CBConfig).failureThreshold ∧
      1 ≤ (⟨true, 2, 2, 10⟩ : CBConfig).successThreshold ∧
      (5 : Int) - 0 < (⟨true, 2, 2, 10⟩ : CBConfig).timeout ∧
      (⟨true, 2, 2, 10⟩ : CBConfig).timeout ≤ (10 : Int) - 0) ∧
    (execFailTimes (CircuitBreaker.init ⟨true, 2, 2, 10⟩) 0
        (⟨true, 2, 2, 10⟩ : CBConfig).failureThreshold).1.state
      = CircuitState.opened ∧
    ((execFailTimes (CircuitBreaker.init ⟨true, 2, 2, 10⟩) 0
        (⟨true, 2, 2, 10⟩ : CBConfig).failureThreshold).1.execute 5
        (Except.error () : Except Unit Unit)).invoked = false ∧
    ((execFailTimes (CircuitBreaker.init ⟨true, 2, 2, 10⟩) 0
        (⟨true, 2, 2, 10⟩ : CBConfig).failureThreshold).1.execute 10
        (Except.ok () : Except Unit Unit)).invoked = true ∧
    (execSuccTimes
        { (execFailTimes (CircuitBreaker.init ⟨true, 2, 2, 10⟩) 0
            (⟨true, 2, 2, 10⟩ : CBConfig).failureThreshold).1 with
          state := CircuitState.halfOpen
          successCount := 0 } 10
        (⟨true, 2, 2, 10⟩ : CBConfig).successThreshold).1.state
      = CircuitState.closed :=
  ⟨⟨rfl, by decide, by decide, by decide, by decide⟩,
    (circuit_lifecycle ⟨true, 2, 2, 10⟩ 0 5 10 rfl (by decide) (by decide)
      (by decide) (by decide)).1,
    ((circuit_lifecycle ⟨true, 2, 2, 10⟩ 0 5 10 rfl (by decide) (by decide)
      (by decide) (by decide)).2.2.1 (Except.error ())).2.1,
    (circuit_lifecycle ⟨true, 2, 2, 10⟩ 0 5 10 rfl (by decide) (by decide)
      (by decide) (by decide)).2.2.2.1.1,
    (circuit_lifecycle ⟨true, 2, 2, 10⟩ 0 5 10 rfl (by decide) (by decide)
      (by decide) (by decide)).2.2.2.2.1⟩
